import Mathlib

/-!
Verification of the parking-recommendation core of `parking-paris`
(`main.py`) against its natural-language specification.

Shallow embedding conventions:
* Python floats are embedded as exact rationals (`ℚ`); decimal literals in
  the source (`0.95`, `0.15`, …) become the corresponding exact rationals.
* Python `datetime` values are embedded as opaque integer timestamps (`ℤ`);
  no claim depends on calendar arithmetic.
* The haversine helper `_calculer_distance` computes with floating-point
  trigonometry (`sin`, `cos`, `arctan2`); it is embedded as an abstract
  distance-function parameter `dist : DistFun` threaded through every
  definition that calls it, so every theorem quantifies over all distance
  functions and in particular holds for the haversine.
* Calls that perform network I/O (`requests.get`, the weather collector)
  are embedded as explicit parameters holding the collaborator's result:
  `none` models a raised/handled network error, `some records` a parsed
  payload.  Draws from Python's `random` module are embedded as explicit
  oracle parameters (`alea`, `piece_meteo`).
* A Python function that can raise an uncaught exception is embedded as an
  `Option`-valued function, `none` modelling the raised exception.
-/

/-- Distance oracle standing for `_calculer_distance lat1 lon1 lat2 lon2`
(haversine over floats in the source). -/
abbrev DistFun := ℚ → ℚ → ℚ → ℚ → ℚ

/-- Mirrors the dataclass `Parking` of `main.py`. -/
structure Parking where
  id : String
  nom : String
  adresse : String
  latitude : ℚ
  longitude : ℚ
  capacite_totale : ℤ
  places_disponibles : ℤ
  tarif_horaire : ℚ
  distance_destination : ℚ := 0
deriving DecidableEq, Repr

/-- Mirrors the dataclass `Travaux` of `main.py` (datetimes as `ℤ`). -/
structure Travaux where
  id : String
  nom : String
  description : String
  latitude : ℚ
  longitude : ℚ
  date_debut : ℤ
  date_fin : ℤ
  niveau_perturbation : String
  statut : String
  impact_circulation : Bool
  geometrie : Option (List (ℚ × ℚ))
deriving DecidableEq, Repr

/-- Mirrors the dataclass `IncidentMetro` of `main.py`. -/
structure IncidentMetro where
  ligne : String
  statut : String
  titre : String
  message : String
  impact_niveau : String
  stations_fermees : List String
deriving DecidableEq, Repr

/-- Mirrors the dataclass `StationMetro` of `main.py`. -/
structure StationMetro where
  nom : String
  slug : String
  latitude : ℚ
  longitude : ℚ
  lignes : List String
  fermee : Bool
  raison_fermeture : String
  distance_point : ℚ := 0
deriving DecidableEq, Repr

/-- Mirrors the dataclass `PredictionSaturation` of `main.py`.  The source
declares `temps_avant_saturation : Optional[str]` but `predire_saturation`
always assigns it a string, so it is embedded as `String`. -/
structure PredictionSaturation where
  parking_id : String
  taux_occupation_actuel : ℚ
  taux_occupation_predit : ℚ
  heure_prediction : ℤ
  fiabilite_prediction : ℚ
  temps_avant_saturation : String
deriving DecidableEq, Repr

/-- One local event as produced by `recuperer_evenements_locaux`: the
`impact_zone` dict (latitude, longitude, rayon_km) and the
`coefficient_impact`. -/
structure Evenement where
  nom : String
  zone_latitude : ℚ
  zone_longitude : ℚ
  rayon_km : ℚ
  coefficient_impact : ℚ
deriving DecidableEq, Repr

/-- Order on parkings by the `distance_destination` field, the sort key of
`filtrer_parkings_pertinents` (`key=lambda p: p.distance_destination`). -/
def ordreDistance (p q : Parking) : Prop :=
  p.distance_destination ≤ q.distance_destination

instance : DecidableRel ordreDistance :=
  fun p q => inferInstanceAs (Decidable (p.distance_destination ≤ q.distance_destination))

instance : IsTotal Parking ordreDistance :=
  ⟨fun p q => le_total p.distance_destination q.distance_destination⟩

instance : IsTrans Parking ordreDistance :=
  ⟨fun _ _ _ h h' => le_trans h h'⟩

/-- Embeds `CollecteurDonnees.filtrer_parkings_pertinents`: keep the lots
within `rayon_max_km` of the destination, record the distance in the
`distance_destination` field (the source mutates the lot in place), sort
ascending by that distance (Python's stable sort embedded as stable
insertion sort) and keep the first 15. -/
def filtrer_parkings_pertinents (dist : DistFun) (parkings : List Parking)
    (destination : ℚ × ℚ) (rayon_max_km : ℚ) : List Parking :=
  let parkings_pertinents := parkings.filterMap fun parking =>
    let distance := dist parking.latitude parking.longitude destination.1 destination.2
    if distance ≤ rayon_max_km then
      some { parking with distance_destination := distance }
    else
      none
  (parkings_pertinents.insertionSort ordreDistance).take 15

/-- Embeds `_generer_parkings_fallback`: the five hand-curated Saemes
records.  `alea i` stands for the `random.randint` draw of record `i`'s
`places_disponibles`. -/
def _generer_parkings_fallback (alea : ℕ → ℤ) : List Parking :=
  [ { id := "SAEM_001", nom := "Parking Hôtel de Ville",
      adresse := "Place de l'Hôtel de Ville, 75004 Paris",
      latitude := 48.8566, longitude := 2.3522,
      capacite_totale := 500, places_disponibles := alea 0, tarif_horaire := 4.40 },
    { id := "SAEM_002", nom := "Parking Notre-Dame",
      adresse := "Place du Parvis Notre-Dame, 75004 Paris",
      latitude := 48.8530, longitude := 2.3499,
      capacite_totale := 400, places_disponibles := alea 1, tarif_horaire := 4.20 },
    { id := "SAEM_003", nom := "Parking Meyerbeer-Opéra",
      adresse := "3 Rue Meyerbeer, 75009 Paris",
      latitude := 48.8708, longitude := 2.3338,
      capacite_totale := 350, places_disponibles := alea 2, tarif_horaire := 4.80 },
    { id := "SAEM_009", nom := "Parking Bassin de la Villette",
      adresse := "Quai de la Seine, 75019 Paris",
      latitude := 48.8889, longitude := 2.3700,
      capacite_totale := 200, places_disponibles := alea 3, tarif_horaire := 3.50 },
    { id := "SAEM_010", nom := "Parking Crimée",
      adresse := "Avenue de Flandre, 75019 Paris",
      latitude := 48.8900, longitude := 2.3750,
      capacite_totale := 150, places_disponibles := alea 4, tarif_horaire := 3.20 } ]

/-- Embeds `_generer_travaux_fallback`: the three hand-curated road works.
`maintenant` stands for `datetime.now()`, `aleaJours i` for the
`random.randint` day offsets. -/
def _generer_travaux_fallback (maintenant : ℤ) (aleaJours : ℕ → ℤ) : List Travaux :=
  [ { id := "TRAV_001", nom := "Rénovation Avenue des Champs-Élysées",
      description := "Travaux de réfection de la chaussée",
      latitude := 48.8698, longitude := 2.3076,
      date_debut := maintenant - aleaJours 0, date_fin := maintenant + aleaJours 1,
      niveau_perturbation := "Très perturbant", statut := "En cours",
      impact_circulation := true,
      geometrie := some [(48.8698, 2.3076), (48.8708, 2.3086), (48.8718, 2.3096)] },
    { id := "TRAV_002", nom := "Réparation Boulevard Saint-Germain",
      description := "Réfection des canalisations",
      latitude := 48.8530, longitude := 2.3352,
      date_debut := maintenant - aleaJours 2, date_fin := maintenant + aleaJours 3,
      niveau_perturbation := "Perturbant", statut := "En cours",
      impact_circulation := true, geometrie := none },
    { id := "TRAV_003", nom := "Travaux Rue de Rivoli",
      description := "Aménagement cyclable",
      latitude := 48.8590, longitude := 2.3470,
      date_debut := maintenant - aleaJours 4, date_fin := maintenant + aleaJours 5,
      niveau_perturbation := "Perturbant", statut := "En cours",
      impact_circulation := true,
      geometrie := some [(48.8590, 2.3470), (48.8595, 2.3480), (48.8600, 2.3490)] } ]

/-- Embeds `_generer_incidents_metro_fallback`: the four hand-curated metro
incidents (lines 1, 7, 4 and 13). -/
def _generer_incidents_metro_fallback : List IncidentMetro :=
  [ { ligne := "1", statut := "normal", titre := "Trafic normal",
      message := "Trafic normal sur l'ensemble de la ligne.",
      impact_niveau := "normal", stations_fermees := [] },
    { ligne := "7", statut := "alerte", titre := "Trafic perturbé",
      message := "Travaux de modernisation. Trafic interrompu entre La Courneuve - 8 Mai 1945 et Riquet du 15 au 20 juillet. La station Riquet est fermée pour travaux.",
      impact_niveau := "perturbe",
      stations_fermees := ["Riquet", "La Courneuve - 8 Mai 1945"] },
    { ligne := "4", statut := "alerte", titre := "Trafic perturbé",
      message := "La station Saint-Germain-des-Prés est fermée pour raisons de sécurité.",
      impact_niveau := "perturbe", stations_fermees := ["Saint-Germain-des-Prés"] },
    { ligne := "13", statut := "normal", titre := "Trafic normal",
      message := "Trafic normal sur l'ensemble de la ligne.",
      impact_niveau := "normal", stations_fermees := [] } ]

/-- Embeds `recuperer_parkings_saemes`.  `upstream` is the parsed result of
the two Saemes requests: `none` models a raised network/parse error (both
`except` arms), `some ps` the list built from the records.  The body
mirrors the source: on error use the fallback, then if the list is still
empty use the fallback, then filter by destination when one is given. -/
def recuperer_parkings_saemes (dist : DistFun) (alea : ℕ → ℤ)
    (upstream : Option (List Parking)) (destination : Option (ℚ × ℚ)) : List Parking :=
  let parkings := match upstream with
    | none => _generer_parkings_fallback alea
    | some ps => ps
  let parkings := if parkings = [] then _generer_parkings_fallback alea else parkings
  match destination with
  | none => parkings
  | some d => filtrer_parkings_pertinents dist parkings d 3

/-- Embeds `recuperer_parkings_paris`.  `none` models a raised error caught
by the `except` arm, which leaves `parkings = []`; there is no fallback
call in this function.  Filtering happens only `if destination and
parkings`. -/
def recuperer_parkings_paris (dist : DistFun)
    (upstream : Option (List Parking)) (destination : Option (ℚ × ℚ)) : List Parking :=
  let parkings := match upstream with
    | none => []
    | some ps => ps
  match destination with
  | none => parkings
  | some d => if parkings = [] then parkings else filtrer_parkings_pertinents dist parkings d 3

/-- Embeds `recuperer_travaux_paris`.  `none` models a raised error (the
`except` arm generates the fallback); `some ts` the list parsed from the
records — when the payload holds zero usable records this is `[]` and is
returned as is. -/
def recuperer_travaux_paris (maintenant : ℤ) (aleaJours : ℕ → ℤ)
    (upstream : Option (List Travaux)) : List Travaux :=
  match upstream with
  | none => _generer_travaux_fallback maintenant aleaJours
  | some ts => ts

/-- Embeds `recuperer_incidents_metro`.  `none` models a raised error (the
`except` arm generates the fallback); `some incs` the incidents built from
the payload — an empty or missing `metros` list yields `[]`, returned as
is. -/
def recuperer_incidents_metro (upstream : Option (List IncidentMetro)) : List IncidentMetro :=
  match upstream with
  | none => _generer_incidents_metro_fallback
  | some incs => incs

/-! ### Station-closure text matching (`_stations_similaires`, `_verifier_fermeture_station`)

The Python code works on `str`; the embedding works on `List Char` so that
every operation is a structurally recursive, kernel-evaluable function.
`str.lower()` is embedded as `Char.toLower` (ASCII case folding; every
concrete input used in the theorems below is chosen so that the two
agree). -/

/-- Embeds `str.lower()` applied to a character list. -/
def minuscules (l : List Char) : List Char := l.map Char.toLower

/-- Embeds `str.replace(a, b)` for single-character patterns. -/
def remplacerChar (a b : Char) (l : List Char) : List Char :=
  l.map fun c => if c = a then b else c

/-- Embeds `str.replace("  ", " ")`: one left-to-right pass replacing each
non-overlapping double space by a single space. -/
def remplacerDoubleEspace : List Char → List Char
  | ' ' :: ' ' :: reste => ' ' :: remplacerDoubleEspace reste
  | c :: reste => c :: remplacerDoubleEspace reste
  | [] => []

/-- Embeds `str.strip()`. -/
def couperEspaces (l : List Char) : List Char :=
  ((l.dropWhile Char.isWhitespace).reverse.dropWhile Char.isWhitespace).reverse

/-- Embeds the local `normaliser` of `_stations_similaires`:
`nom.lower().replace("-", " ").replace("'", " ").replace("  ", " ").strip()`. -/
def normaliser (nom : String) : List Char :=
  couperEspaces (remplacerDoubleEspace
    (remplacerChar '\'' ' ' (remplacerChar '-' ' ' (minuscules nom.toList))))

/-- Embeds `str.split()` (split on whitespace runs, no empty words):
accumulator-based tokenizer. -/
def decouperMots : List Char → List Char → List (List Char)
  | [], acc => if acc = [] then [] else [acc.reverse]
  | c :: reste, acc =>
    if c.isWhitespace then
      if acc = [] then decouperMots reste [] else acc.reverse :: decouperMots reste []
    else
      decouperMots reste (c :: acc)

/-- The word list of a normalized name (`nom.split()`). -/
def motsDe (l : List Char) : List (List Char) := decouperMots l []

/-- Embeds Python's `a == b[:len(a)]` test used by `contientListe`. -/
def debuteAvec : List Char → List Char → Bool
  | [], _ => true
  | _ :: _, [] => false
  | a :: as, b :: bs => a == b && debuteAvec as bs

/-- Embeds Python's substring test `petit in grand`. -/
def contientListe (grand petit : List Char) : Bool :=
  match grand with
  | [] => debuteAvec petit []
  | g :: reste => debuteAvec petit (g :: reste) || contientListe reste petit

/-- Embeds `CollecteurDonnees._stations_similaires`: normalized equality,
mutual containment, or word overlap `len(mots1 & mots2) /
max(len(mots1), len(mots2)) > 0.7` (Python sets embedded as deduplicated
word lists; the float quotient as an exact rational). -/
def _stations_similaires (station1 station2 : String) : Bool :=
  let nom1_norm := normaliser station1
  let nom2_norm := normaliser station2
  if nom1_norm = nom2_norm then true
  else if contientListe nom2_norm nom1_norm || contientListe nom1_norm nom2_norm then true
  else
    let mots1 := (motsDe nom1_norm).dedup
    let mots2 := (motsDe nom2_norm).dedup
    let commun := (mots1.filter fun m => m ∈ mots2).length
    let maxi : ℕ := max mots1.length mots2.length
    decide ((commun : ℚ) / (maxi : ℚ) > 0.7)

/-- Embeds `CollecteurDonnees._verifier_fermeture_station`: returns the pair
`(fermee, raison)`.  Per incident, first the extracted
`stations_fermees` are compared with `_stations_similaires` (with no
condition on the impact level), then the station name is searched
case-insensitively in the raw message, only for a non-normal impact
level. -/
def _verifier_fermeture_station (nom_station : String) :
    List IncidentMetro → Bool × String
  | [] => (false, "")
  | incident :: reste =>
    if incident.stations_fermees.any (fun sf => _stations_similaires nom_station sf) then
      (true, "Fermée - Ligne " ++ incident.ligne ++ ": " ++ incident.titre)
    else if contientListe (minuscules incident.message.toList)
          (minuscules nom_station.toList)
        && incident.impact_niveau != "normal" then
      (true, "Perturbée - Ligne " ++ incident.ligne ++ ": " ++ incident.titre)
    else
      _verifier_fermeture_station nom_station reste

/-- Modelled from the claim's words (C8), for comparison with the source:
approximate match = case-insensitive normalized equality, containment
either way, or token overlap of at least 70 percent (`≥`) of the larger
token set. -/
def similaires_selon_claim (station1 station2 : String) : Bool :=
  let nom1 := normaliser station1
  let nom2 := normaliser station2
  nom1 == nom2 || contientListe nom2 nom1 || contientListe nom1 nom2 ||
    (let mots1 := (motsDe nom1).dedup
     let mots2 := (motsDe nom2).dedup
     let maxi : ℕ := max mots1.length mots2.length
     decide (((mots1.filter fun m => m ∈ mots2).length : ℚ) / (maxi : ℚ) ≥ 0.7))

/-- Modelled from the claim's words (C8), for comparison with the source: a
station is deemed closed exactly when its name approximately matches an
extracted name of an incident whose impact level is non-normal, or when
the raw station name literally appears inside the incident's message
text. -/
def fermeture_selon_claim (nom_station : String) (incidents : List IncidentMetro) : Bool :=
  incidents.any fun incident =>
    (incident.impact_niveau != "normal"
      && incident.stations_fermees.any (fun sf => similaires_selon_claim nom_station sf))
    || contientListe incident.message.toList nom_station.toList

/-- The amended C8 statement as a predicate: closed exactly when the name
matches (`_stations_similaires`, strict 70 percent threshold) an extracted
name of ANY incident, or when the name appears case-insensitively in the
message of an incident with non-normal impact level. -/
def fermeture_amendee (nom_station : String) (incidents : List IncidentMetro) : Bool :=
  incidents.any fun incident =>
    incident.stations_fermees.any (fun sf => _stations_similaires nom_station sf)
    || (contientListe (minuscules incident.message.toList)
          (minuscules nom_station.toList)
        && incident.impact_niveau != "normal")

/-! ### Saturation predictor (`PredicteurSaturation.predire_saturation`) -/

/-- Embeds the time-to-saturation derivation at the end of
`predire_saturation` (lines computing `temps_saturation_str`).  Python's
`int(x)` for the nonnegative values reached here is `Rat.floor`;
`int(temps_en_minutes/60)` is integer division of a nonnegative value. -/
def calculer_temps_saturation (prediction_ajustee taux_actuel : ℚ) : String :=
  if prediction_ajustee > 0.95 ∧ taux_actuel < 0.95 then
    let vitesse_remplissage_hypothetique := (prediction_ajustee - taux_actuel) / 60
    if vitesse_remplissage_hypothetique > 0.001 then
      let temps_en_minutes : ℤ :=
        Rat.floor ((0.95 - taux_actuel) / vitesse_remplissage_hypothetique)
      if temps_en_minutes < 60 then
        "~" ++ toString temps_en_minutes ++ " min"
      else
        "~" ++ toString (temps_en_minutes / 60) ++ " heure(s)"
    else
      "Faible risque immédiat"
  else if prediction_ajustee ≥ 0.99 then
    "Déjà saturé ou très proche"
  else if prediction_ajustee ≤ 0.5 then
    "Très faible risque"
  else
    "N/A"

/-- Embeds `PredicteurSaturation.predire_saturation`.

Abstractions of collaborator results, per the conventions above:
* `prediction_base`, `ecart_type` — mean and standard deviation of the
  matching randomized historical samples (`np.mean`/`np.std` over
  `generer_historique_simule`; `0.5`/`0.2` defaults are a particular
  instantiation);
* `meteo_ok` — the weather payload is present and carries no `"error"` key;
* `piece_meteo` — the draw `random.random() < 0.3`;
* `stations_proches` — result of
  `recuperer_stations_metro_proches(lat, lon, rayon_km=0.8)`;
* `evenements` — result of `recuperer_evenements_locaux`. -/
def predire_saturation (dist : DistFun) (parking : Parking) (heure_cible : ℤ)
    (prediction_base ecart_type : ℚ) (meteo_ok piece_meteo : Bool)
    (stations_proches : List StationMetro) (evenements : List Evenement) :
    PredictionSaturation :=
  let prediction_ajustee := prediction_base
  let prediction_ajustee :=
    if meteo_ok then
      if piece_meteo then prediction_ajustee * 0.9 else prediction_ajustee * 1.05
    else prediction_ajustee
  let stations_fermees := stations_proches.filter (·.fermee)
  let prediction_ajustee :=
    if stations_fermees.length > 0 then
      prediction_ajustee * (1 + (stations_fermees.length : ℚ) * 0.15)
    else prediction_ajustee
  let prediction_ajustee := evenements.foldl
    (fun p e =>
      if dist parking.latitude parking.longitude e.zone_latitude e.zone_longitude
          ≤ e.rayon_km then
        p * e.coefficient_impact
      else p)
    prediction_ajustee
  let prediction_ajustee := min (max prediction_ajustee 0) 1
  let taux_actuel := 1 - (parking.places_disponibles : ℚ) / (parking.capacite_totale : ℚ)
  { parking_id := parking.id
    taux_occupation_actuel := taux_actuel
    taux_occupation_predit := prediction_ajustee
    heure_prediction := heure_cible
    fiabilite_prediction := 1 - ecart_type
    temps_avant_saturation := calculer_temps_saturation prediction_ajustee taux_actuel }

/-! ### Recommendation ranker (`AssistantNavigation`) -/

/-- Result of `calculer_temps_trajet` when a route exists (`None` = the lot
is unreachable). -/
structure TrajetData where
  duration : ℤ
  duration_in_traffic : ℤ
  route_points : List (ℚ × ℚ)
deriving DecidableEq, Repr

/-- One entry of the `stations_fermees_parking` /
`stations_fermees_destination` lists built by `_calculer_impact_metro`
(the source appends a dict with keys `nom`, `lignes`, `raison`). -/
structure FermetureInfo where
  nom : String
  lignes : List String
  raison : String
deriving DecidableEq, Repr

/-- The dict returned by `_calculer_impact_metro`. -/
structure ImpactMetro where
  score_penalite : ℤ
  stations_fermees_parking : List FermetureInfo
  stations_fermees_destination : List FermetureInfo
  recommandation : String
deriving DecidableEq, Repr

/-- Embeds `AssistantNavigation._calculer_impact_metro`: +5 penalty per
closed station near the lot, −10 per closed station near the
destination, plus the advisory text. -/
def _calculer_impact_metro (stations_parking stations_destination : List StationMetro) :
    ImpactMetro :=
  let fermees_parking := (stations_parking.filter (·.fermee)).map fun s =>
    { nom := s.nom, lignes := s.lignes, raison := s.raison_fermeture : FermetureInfo }
  let fermees_destination := (stations_destination.filter (·.fermee)).map fun s =>
    { nom := s.nom, lignes := s.lignes, raison := s.raison_fermeture : FermetureInfo }
  let penalite := 5 * (fermees_parking.length : ℤ) - 10 * (fermees_destination.length : ℤ)
  let recommandation :=
    if fermees_destination.length > 0 then
      "Parking avantageux : " ++ toString fermees_destination.length
        ++ " station(s) fermée(s) près de la destination"
    else if fermees_parking.length > 0 then
      "Attention : " ++ toString fermees_parking.length
        ++ " station(s) fermée(s) près du parking"
    else
      "Métro normal, pas d'impact particulier"
  { score_penalite := penalite
    stations_fermees_parking := fermees_parking
    stations_fermees_destination := fermees_destination
    recommandation := recommandation }

/-- Embeds `route_points[::pas]`: every `pas`-th point starting at index 0. -/
def echantillonner {α : Type} (pas : ℕ) (l : List α) : List α :=
  (l.enum.filter fun pi => pi.1 % pas = 0).map (·.2)

/-- Embeds `AssistantNavigation._identifier_travaux_sur_trajet`: a work is on
the route when it affects circulation and some sampled route point (every
5th) is within 0.3 km of its centroid. -/
def _identifier_travaux_sur_trajet (dist : DistFun) (route_points : List (ℚ × ℚ))
    (travaux : List Travaux) : List Travaux :=
  travaux.filter fun travail =>
    travail.impact_circulation
      && (echantillonner 5 route_points).any fun point =>
        decide (dist point.1 point.2 travail.latitude travail.longitude < 0.3)

/-- Embeds `AssistantNavigation.calculer_score_parking`: the composite cost,
lower is better.  `impact_metro = none` embeds the `None` default (the
source then reads `score_penalite` as 0). -/
def calculer_score_parking (taux_saturation : ℚ) (temps_acces temps_marche : ℤ)
    (tarif : ℚ) (nb_travaux : ℕ) (impact_metro : Option ImpactMetro)
    (distance_destination : ℚ) : ℚ :=
  let penalite_saturation := taux_saturation ^ 2 * 100
  let penalite_temps := ((temps_acces + temps_marche : ℤ) : ℚ) * 0.5
  let penalite_tarif := tarif * 2
  let penalite_travaux := (nb_travaux : ℚ) * 15
  let penalite_distance := distance_destination * 10
  let impact_metro_score : ℚ := match impact_metro with
    | none => 0
    | some im => (im.score_penalite : ℚ)
  let bonus_disponibilite : ℚ :=
    if taux_saturation > 0.8 then 0 else (1 - taux_saturation) * 20
  penalite_saturation + penalite_temps + penalite_tarif + penalite_travaux
    + penalite_distance + impact_metro_score - bonus_disponibilite

/-- The C3 composite-score formula written from the spec's words, for
comparison with `calculer_score_parking`. -/
def score_selon_spec (satur : ℚ) (access_min walk_min : ℤ) (tariff : ℚ)
    (works_count : ℕ) (transit_penalty : ℚ) (distance_km : ℚ) : ℚ :=
  satur ^ 2 * 100 + ((access_min + walk_min : ℤ) : ℚ) * 0.5 + tariff * 2
    + (works_count : ℚ) * 15 + distance_km * 10 + transit_penalty
    - (if satur > 0.8 then 0 else (1 - satur) * 20)

/-- The per-lot collaborator results consumed by one iteration of the
candidate loop of `recommander_parking`:
* `temps_acces_data` — `calculer_temps_trajet(position, parking, 'driving')`
  (`none` = no route, the lot is skipped);
* `temps_marche_data` — `calculer_temps_trajet(parking, destination,
  'walking')` (`none` = no route, the lot is skipped);
* `prediction` — `predire_saturation(parking, heure_arrivee_parking)`;
* `stations_parking` — `recuperer_stations_metro_proches(parking, 0.5)`. -/
structure Candidat where
  parking : Parking
  temps_acces_data : Option TrajetData
  temps_marche_data : Option TrajetData
  prediction : PredictionSaturation
  stations_parking : List StationMetro
deriving DecidableEq, Repr

/-- The per-parking dict appended to `recommendations` in
`recommander_parking`. -/
structure Recommandation where
  parking : Parking
  temps_acces : ℤ
  temps_marche_destination : ℤ
  temps_total : ℤ
  prediction_saturation : PredictionSaturation
  score : ℚ
  disponible : Bool
  route_to_parking_points : List (ℚ × ℚ)
  route_parking_to_dest_points : List (ℚ × ℚ)
  travaux_impactants : List Travaux
  stations_proches : List StationMetro
  impact_metro : ImpactMetro
deriving DecidableEq, Repr

/-- One loop iteration of `recommander_parking`: `none` when the lot is
skipped (`continue`) because a driving or walking leg is `None`. -/
def evaluer_candidat (dist : DistFun) (travaux : List Travaux)
    (stations_destination : List StationMetro) (c : Candidat) :
    Option Recommandation :=
  match c.temps_acces_data with
  | none => none
  | some acces =>
    match c.temps_marche_data with
    | none => none
    | some marche =>
      let travaux_impactants :=
        _identifier_travaux_sur_trajet dist acces.route_points travaux
      let impact_metro := _calculer_impact_metro c.stations_parking stations_destination
      let score := calculer_score_parking c.prediction.taux_occupation_predit
        acces.duration_in_traffic marche.duration c.parking.tarif_horaire
        travaux_impactants.length (some impact_metro) c.parking.distance_destination
      some { parking := c.parking
             temps_acces := acces.duration_in_traffic
             temps_marche_destination := marche.duration
             temps_total := acces.duration_in_traffic + marche.duration
             prediction_saturation := c.prediction
             score := score
             disponible := decide (c.prediction.taux_occupation_predit < 0.95)
             route_to_parking_points := acces.route_points
             route_parking_to_dest_points := marche.route_points
             travaux_impactants := travaux_impactants
             stations_proches := c.stations_parking
             impact_metro := impact_metro }

/-- Order on recommendations by the `score` field, the sort key of
`recommander_parking` (`key=lambda x: x['score']`). -/
def ordreScore (a b : Recommandation) : Prop := a.score ≤ b.score

instance : DecidableRel ordreScore :=
  fun a b => inferInstanceAs (Decidable (a.score ≤ b.score))

instance : IsTotal Recommandation ordreScore := ⟨fun a b => le_total a.score b.score⟩

instance : IsTrans Recommandation ordreScore := ⟨fun _ _ _ h h' => le_trans h h'⟩

/-- The dict returned by `recommander_parking`.  `Option` fields embed keys
that are absent (`travaux_tous`, `stations_parking`, `impact_metro`) or
`None`-valued (`parking_recommande`, `temps_estime`, `saturation`) in the
no-recommendation dicts.  The source formats `temps_estime` and
`saturation` as nested dicts/strings of the same data; `alternatives`
entries are field projections of the `Recommandation` records kept here
whole. -/
structure ResultatRecommandation where
  parking_recommande : Option Parking
  temps_estime : Option (ℤ × ℤ × ℤ)
  saturation : Option PredictionSaturation
  route_to_parking_points : List (ℚ × ℚ)
  route_parking_to_dest_points : List (ℚ × ℚ)
  travaux_sur_trajet : List Travaux
  travaux_tous : Option (List Travaux)
  incidents_metro : List IncidentMetro
  stations_destination : List StationMetro
  stations_parking : Option (List StationMetro)
  impact_metro : Option ImpactMetro
  alternatives : List Recommandation
deriving DecidableEq, Repr

/-- The no-recommendation dict built at the two early-exit points of
`recommander_parking` (no candidate lots at all, or every candidate
skipped): `parking_recommande` is `None`, the works fields are the empty
route-works list and an absent `travaux_tous` key, and the gathered
`incidents_metro` and `stations_destination` are carried through. -/
def resultat_vide (incidents_metro : List IncidentMetro)
    (stations_destination : List StationMetro) : ResultatRecommandation :=
  { parking_recommande := none
    temps_estime := none
    saturation := none
    route_to_parking_points := []
    route_parking_to_dest_points := []
    travaux_sur_trajet := []
    travaux_tous := none
    incidents_metro := incidents_metro
    stations_destination := stations_destination
    stations_parking := none
    impact_metro := none
    alternatives := [] }

/-- Embeds `AssistantNavigation.recommander_parking` downstream of the data
fetches: `tous_parkings` is `parkings_saemes + parkings_paris` together
with the per-lot collaborator results, `travaux`, `incidents_metro` and
`stations_destination` the results of the three context fetches.  Python's
stable in-place sort by score is embedded as stable insertion sort. -/
def recommander_parking (dist : DistFun) (tous_parkings : List Candidat)
    (travaux : List Travaux) (incidents_metro : List IncidentMetro)
    (stations_destination : List StationMetro) : ResultatRecommandation :=
  if tous_parkings.isEmpty then
    resultat_vide incidents_metro stations_destination
  else
    let recommendations :=
      tous_parkings.filterMap (evaluer_candidat dist travaux stations_destination)
    match recommendations.insertionSort ordreScore with
    | [] => resultat_vide incidents_metro stations_destination
    | meilleure_reco :: reste =>
      { parking_recommande := some meilleure_reco.parking
        temps_estime := some (meilleure_reco.temps_acces,
          meilleure_reco.temps_marche_destination, meilleure_reco.temps_total)
        saturation := some meilleure_reco.prediction_saturation
        route_to_parking_points := meilleure_reco.route_to_parking_points
        route_parking_to_dest_points := meilleure_reco.route_parking_to_dest_points
        travaux_sur_trajet := meilleure_reco.travaux_impactants
        travaux_tous := some travaux
        incidents_metro := incidents_metro
        stations_destination := stations_destination
        stations_parking := some meilleure_reco.stations_proches
        impact_metro := some meilleure_reco.impact_metro
        alternatives := reste.take 3 }

/-! ### Polyline decoding (`AssistantNavigation._decode_polyline`)

The Python decoder indexes `polyline_str[index]` without a bounds check
inside its chunk-reading `while True` loops; reading past the end raises
an uncaught `IndexError`.  The embedding returns `Option`: `none` models
exactly that raised `IndexError`. -/

/-- The 5-bit chunk of one character: `(ord(c) - 63) & 0x1f` with Python's
nonnegative `%`-semantics for characters below `chr(63)`. -/
def chunkDe (c : Char) : ℕ := (((c.toNat : ℤ) - 63).emod 32).toNat

/-- One inner `while True` loop of `_decode_polyline`: accumulate 5-bit
chunks into `result` while the continuation bit is set
(`byte >= 0x20`, i.e. `ord(c) ≥ 95`); `none` models the `IndexError`
raised when the string ends first. -/
def lireValeur : List Char → ℕ → ℕ → Option (ℕ × List Char)
  | [], _, _ => none
  | c :: reste, shift, result =>
    if c.toNat ≥ 95 then
      lireValeur reste (shift + 5) (result ||| (chunkDe c <<< shift))
    else
      some (result ||| (chunkDe c <<< shift), reste)

/-- The zig-zag step `~(result >> 1) if result & 1 else (result >> 1)`. -/
def decoderDelta (result : ℕ) : ℤ :=
  if result % 2 = 1 then -((result / 2 : ℕ) : ℤ) - 1 else ((result / 2 : ℕ) : ℤ)

/-- The outer `while index < len(polyline_str)` loop of `_decode_polyline`:
read a latitude value then a longitude value, accumulate the signed
deltas, emit `(lat / 1e5, lng / 1e5)`. -/
def decodeBoucle (l : List Char) (lat lng : ℤ) : Option (List (ℚ × ℚ)) :=
  match l with
  | [] => some []
  | c :: reste =>
    match h1 : lireValeur (c :: reste) 0 0 with
    | none => none
    | some (rlat, l1) =>
      let lat2 := lat + decoderDelta rlat
      match h2 : lireValeur l1 0 0 with
      | none => none
      | some (rlng, l2) =>
        let lng2 := lng + decoderDelta rlng
        match decodeBoucle l2 lat2 lng2 with
        | none => none
        | some points => some (((lat2 : ℚ) / 100000, (lng2 : ℚ) / 100000) :: points)
termination_by l.length
decreasing_by
  have cle : ∀ (m : List Char) (shift result v : ℕ) (reste : List Char),
      lireValeur m shift result = some (v, reste) → reste.length < m.length := by
    intro m
    induction m with
    | nil => intro shift result v reste h; simp [lireValeur] at h
    | cons a as ih =>
      intro shift result v reste h
      by_cases hb : a.toNat ≥ 95
      · simp only [lireValeur, if_pos hb] at h
        exact Nat.lt_trans (ih _ _ _ _ h) (Nat.lt_succ_self _)
      · simp only [lireValeur, if_neg hb, Option.some.injEq, Prod.mk.injEq] at h
        simp [← h.2]
  exact Nat.lt_trans (cle _ _ _ _ _ h2) (cle _ _ _ _ _ h1)

/-- Embeds `AssistantNavigation._decode_polyline`; `none` models the
uncaught `IndexError` on malformed input. -/
def _decode_polyline (polyline_str : String) : Option (List (ℚ × ℚ)) :=
  decodeBoucle polyline_str.toList 0 0

/-- A well-formed chunk block: zero or more continuation characters
(`ord ≥ 95`) and one terminating character (`ord < 95`).  `blocChars`
yields the characters of the block. -/
def blocChars (conts : List Char) (fin : Char) : List Char := conts ++ [fin]

/-- Validity of a block: every leading character carries the continuation
bit, the final one does not. -/
def BlocValide (conts : List Char) (fin : Char) : Prop :=
  (∀ c ∈ conts, 95 ≤ c.toNat) ∧ fin.toNat < 95

/-- The character stream of a list of encoded coordinate pairs, each a
latitude block followed by a longitude block. -/
def paquetsChars : List ((List Char × Char) × (List Char × Char)) → List Char
  | [] => []
  | (blat, blng) :: reste =>
    blocChars blat.1 blat.2 ++ blocChars blng.1 blng.2 ++ paquetsChars reste

/-- Validity of a list of encoded coordinate pairs. -/
def PaquetsValides (paquets : List ((List Char × Char) × (List Char × Char))) : Prop :=
  ∀ p ∈ paquets, BlocValide p.1.1 p.1.2 ∧ BlocValide p.2.1 p.2.2

/-! ### Concrete instances used to instantiate theorems -/

/-- Constant distance oracle (all distances 0 km). -/
def distanceNulle : DistFun := fun _ _ _ _ => 0

/-- Constant distance oracle (all distances 1 km). -/
def distanceUnite : DistFun := fun _ _ _ _ => 1

/-- Constant randomness oracle. -/
def aleaNul : ℕ → ℤ := fun _ => 0

/-- A concrete parking lot (capacity 100, 50 free spaces). -/
def parkingExemple : Parking :=
  { id := "P1", nom := "Parking Exemple", adresse := "Paris",
    latitude := 48.85, longitude := 2.35,
    capacite_totale := 100, places_disponibles := 50, tarif_horaire := 3 }

/-- A concrete closed metro station. -/
def stationFermeeExemple : StationMetro :=
  { nom := "Riquet", slug := "riquet", latitude := 48.8889, longitude := 2.3625,
    lignes := ["7"], fermee := true, raison_fermeture := "Travaux" }

/-- A second concrete closed metro station. -/
def stationFermeeExemple2 : StationMetro :=
  { nom := "Crimée", slug := "crimee", latitude := 48.8903, longitude := 2.3775,
    lignes := ["7"], fermee := true, raison_fermeture := "Travaux" }

/-- A concrete road work affecting circulation. -/
def travauxExemple : Travaux :=
  { id := "T1", nom := "Travaux Exemple", description := "Chantier",
    latitude := 48.86, longitude := 2.34, date_debut := 0, date_fin := 10,
    niveau_perturbation := "Perturbant", statut := "En cours",
    impact_circulation := true, geometrie := none }

/-- A concrete saturation prediction (no adjustments, base 1/2). -/
def predictionExemple : PredictionSaturation :=
  predire_saturation distanceNulle parkingExemple 0 (1/2) (1/5) false false [] []

/-- A concrete reachable route leg. -/
def trajetExemple : TrajetData :=
  { duration := 10, duration_in_traffic := 12, route_points := [] }

/-- A concrete fully reachable candidate lot. -/
def candidatExemple : Candidat :=
  { parking := parkingExemple, temps_acces_data := some trajetExemple,
    temps_marche_data := some trajetExemple, prediction := predictionExemple,
    stations_parking := [] }

/-- A concrete candidate lot whose driving leg is `None` (skipped by the
ranker loop). -/
def candidatInaccessible : Candidat :=
  { parking := parkingExemple, temps_acces_data := none,
    temps_marche_data := some trajetExemple, prediction := predictionExemple,
    stations_parking := [] }

/-- An incident with a normal impact level but a nonempty extracted
closed-station list. -/
def incidentExtraitNormal : IncidentMetro :=
  { ligne := "7", statut := "normal", titre := "Trafic normal", message := "",
    impact_niveau := "normal", stations_fermees := ["Riquet"] }

/-- An incident with a normal impact level whose message names a station. -/
def incidentMessageNormal : IncidentMetro :=
  { ligne := "7", statut := "normal", titre := "Trafic normal",
    message := "La station Riquet est fermee",
    impact_niveau := "normal", stations_fermees := [] }

/-- A non-normal incident whose message names a station in lower case only. -/
def incidentMessageMinuscule : IncidentMetro :=
  { ligne := "7", statut := "alerte", titre := "Trafic perturbé",
    message := "la station riquet est fermee",
    impact_niveau := "perturbe", stations_fermees := [] }

/-- A non-normal incident whose extracted station name shares exactly 70
percent of its tokens with the probed station name. -/
def incidentSeuil : IncidentMetro :=
  { ligne := "7", statut := "alerte", titre := "Trafic perturbé", message := "",
    impact_niveau := "perturbe", stations_fermees := ["a b c d e f g k l m"] }

/-! ## Theorems settling the claims -/

/-- Claim C1, counterexample.  The claim says every fetch operation falls
back to a non-empty synthetic dataset when the upstream source errors or
returns zero usable records.  But `recuperer_parkings_paris` has no
fallback at all and returns the empty list on an upstream error, and
`recuperer_travaux_paris` / `recuperer_incidents_metro` return the empty
list when the upstream succeeds with zero usable records — while the
synthetic parking dataset is indeed non-empty. -/
theorem fetch_sans_repli_contre_exemple :
    recuperer_parkings_paris distanceNulle none none = []
      ∧ recuperer_travaux_paris 0 aleaNul (some []) = []
      ∧ recuperer_incidents_metro (some []) = []
      ∧ _generer_parkings_fallback aleaNul ≠ [] :=
  ⟨rfl, rfl, rfl, by simp [_generer_parkings_fallback]⟩

/-- Claim C1, amended: the Saemes fetch returns a non-empty list for every
upstream outcome (error, zero records, or data), falling back to the
synthetic dataset; the road-works and transit-incidents fetches fall back
to their non-empty synthetic datasets on upstream error (but not on zero
usable records); the Paris municipal fetch never falls back: it returns
the upstream records as parsed and the empty list on error.  In every
case the error is handled locally: each fetch is a total function of the
upstream outcome, so no error propagates to the caller. -/
theorem fetch_repli_amende :
    (∀ (dist : DistFun) (alea : ℕ → ℤ) (upstream : Option (List Parking)),
      recuperer_parkings_saemes dist alea upstream none ≠ [])
    ∧ (∀ (maintenant : ℤ) (aleaJours : ℕ → ℤ),
      recuperer_travaux_paris maintenant aleaJours none
          = _generer_travaux_fallback maintenant aleaJours
        ∧ _generer_travaux_fallback maintenant aleaJours ≠ [])
    ∧ (recuperer_incidents_metro none = _generer_incidents_metro_fallback
        ∧ _generer_incidents_metro_fallback ≠ [])
    ∧ (∀ (dist : DistFun) (ps : List Parking),
      recuperer_parkings_paris dist (some ps) none = ps
        ∧ recuperer_parkings_paris dist none none = []) := by
  refine ⟨?_, ?_, ⟨rfl, by simp [_generer_incidents_metro_fallback]⟩, ?_⟩
  · intro dist alea upstream
    cases upstream with
    | none => simp [recuperer_parkings_saemes, _generer_parkings_fallback]
    | some ps =>
      cases ps with
      | nil => simp [recuperer_parkings_saemes, _generer_parkings_fallback]
      | cons p reste => simp [recuperer_parkings_saemes]
  · intro m a
    exact ⟨rfl, by simp [_generer_travaux_fallback]⟩
  · intro dist ps
    exact ⟨rfl, rfl⟩

/-- Claim C3: `calculer_score_parking` computes exactly the spec's composite
formula (with the transit penalty read from the impact record, 0 when the
record is `None`), and two lots identical except for one extra nearby
work differ by exactly 15 points, the lot without the work scoring
strictly lower (ranking first, since lower is better). -/
theorem calculer_score_parking_formule :
    ∀ (s : ℚ) (a w : ℤ) (t : ℚ) (n : ℕ) (im : ImpactMetro)
      (im' : Option ImpactMetro) (d : ℚ),
      calculer_score_parking s a w t n (some im) d
          = score_selon_spec s a w t n (im.score_penalite : ℚ) d
        ∧ calculer_score_parking s a w t n none d = score_selon_spec s a w t n 0 d
        ∧ calculer_score_parking s a w t (n + 1) im' d
            = calculer_score_parking s a w t n im' d + 15
        ∧ calculer_score_parking s a w t n im' d
            < calculer_score_parking s a w t (n + 1) im' d := by
  intro s a w t n im im' d
  have h3 : calculer_score_parking s a w t (n + 1) im' d
      = calculer_score_parking s a w t n im' d + 15 := by
    simp only [calculer_score_parking]
    push_cast
    ring
  refine ⟨?_, ?_, h3, ?_⟩
  · simp only [calculer_score_parking, score_selon_spec]
  · simp only [calculer_score_parking, score_selon_spec]
  · rw [h3]
    linarith

/-- Claim C5: whatever the base prediction, weather multiplier, closed
stations and event coefficients, the predicted occupancy ratio returned
by `predire_saturation` lies in the interval from 0 to 1. -/
theorem predire_saturation_bornee :
    ∀ (dist : DistFun) (parking : Parking) (heure : ℤ) (base ecart : ℚ)
      (meteo_ok piece : Bool) (stations : List StationMetro) (evts : List Evenement),
      0 ≤ (predire_saturation dist parking heure base ecart meteo_ok piece
            stations evts).taux_occupation_predit
        ∧ (predire_saturation dist parking heure base ecart meteo_ok piece
            stations evts).taux_occupation_predit ≤ 1 := by
  intro dist parking heure base ecart meteo_ok piece stations evts
  simp only [predire_saturation]
  exact ⟨le_min (le_max_right _ _) zero_le_one, min_le_right _ _⟩

/-- Claim C2, counterexample.  With a base prediction of 1/2, no weather or
event adjustment and two closed stations nearby, the code multiplies once
by `1 + 2 × 0.15`, producing 13/20 — not the claimed multiplicative
compounding `(1 + 0.15)² = 1.3225`, which would produce 529/800. -/
theorem predire_saturation_compose_contre_exemple :
    (predire_saturation distanceNulle parkingExemple 0 (1/2) (1/5) false false
        [stationFermeeExemple, stationFermeeExemple2] []).taux_occupation_predit
      = 13/20
    ∧ (predire_saturation distanceNulle parkingExemple 0 (1/2) (1/5) false false
        [stationFermeeExemple, stationFermeeExemple2] []).taux_occupation_predit
      ≠ (1/2) * (1 + 0.15) ^ 2 := by
  have h : (predire_saturation distanceNulle parkingExemple 0 (1/2) (1/5) false false
      [stationFermeeExemple, stationFermeeExemple2] []).taux_occupation_predit
      = 13/20 := by
    simp only [predire_saturation, stationFermeeExemple, stationFermeeExemple2,
      List.filter, List.foldl_nil, min_def, max_def]
    norm_num
  refine ⟨h, ?_⟩
  rw [h]
  norm_num

/-- Claim C2, amended: in `predire_saturation`, `n` closed stations nearby
scale the (weather-free, event-free) base prediction by the single linear
factor `1 + n × 0.15`, not by the compounding `(1.15)^n`; the equality
holds whenever the scaled value needs no clamping. -/
theorem predire_saturation_fermetures_lineaires :
    ∀ (dist : DistFun) (parking : Parking) (heure : ℤ) (base ecart : ℚ)
      (piece : Bool) (stations : List StationMetro),
      0 ≤ base * (1 + ((stations.filter (·.fermee)).length : ℚ) * 0.15) →
      base * (1 + ((stations.filter (·.fermee)).length : ℚ) * 0.15) ≤ 1 →
      (predire_saturation dist parking heure base ecart false piece
          stations []).taux_occupation_predit
        = base * (1 + ((stations.filter (·.fermee)).length : ℚ) * 0.15) := by
  intro dist parking heure base ecart piece stations h0 h1
  simp only [predire_saturation, List.foldl_nil, Bool.false_eq_true, if_false]
  by_cases hn : (stations.filter (·.fermee)).length > 0
  · rw [if_pos hn, max_eq_left h0, min_eq_left h1]
  · have hz : (stations.filter (·.fermee)).length = 0 := by omega
    rw [if_neg hn]
    rw [hz] at h0 h1
    push_cast at h0 h1
    rw [hz]
    push_cast
    rw [zero_mul, add_zero, mul_one] at h0 h1 ⊢
    rw [max_eq_left h0, min_eq_left h1]

/-- Witness for the amended C2 at one closed station and base 1/2. -/
theorem predire_saturation_fermetures_lineaires_temoin :
    (predire_saturation distanceNulle parkingExemple 0 (1/2) (1/5) false false
        [stationFermeeExemple] []).taux_occupation_predit
      = (1/2) * (1 + ((([stationFermeeExemple].filter (·.fermee)).length : ℚ)) * 0.15) :=
  predire_saturation_fermetures_lineaires distanceNulle parkingExemple 0 (1/2) (1/5)
    false [stationFermeeExemple]
    (by simp [stationFermeeExemple, List.filter]; norm_num)
    (by simp [stationFermeeExemple, List.filter]; norm_num)

/-- Claim C6: `filtrer_parkings_pertinents` returns only lots whose distance
to the destination is at most the radius, stores that distance in the
returned lot's `distance_destination` field, returns at most 15 lots, and
returns them sorted non-decreasing by distance.  The statement quantifies
over every distance oracle `dist`, hence holds for the haversine
`_calculer_distance`. -/
theorem filtrer_parkings_pertinents_correct :
    ∀ (dist : DistFun) (parkings : List Parking) (destination : ℚ × ℚ) (rayon : ℚ),
      (∀ q ∈ filtrer_parkings_pertinents dist parkings destination rayon,
        q.distance_destination ≤ rayon
          ∧ q.distance_destination
              = dist q.latitude q.longitude destination.1 destination.2)
        ∧ (filtrer_parkings_pertinents dist parkings destination rayon).length ≤ 15
        ∧ List.Sorted ordreDistance
            (filtrer_parkings_pertinents dist parkings destination rayon) := by
  intro dist parkings destination rayon
  simp only [filtrer_parkings_pertinents]
  refine ⟨?_, List.length_take_le _ _,
    List.Pairwise.sublist (List.take_sublist _ _) (List.sorted_insertionSort _ _)⟩
  intro q hq
  have hq1 := List.mem_of_mem_take hq
  rw [List.mem_insertionSort] at hq1
  obtain ⟨p, hp, hsome⟩ := List.mem_filterMap.mp hq1
  split_ifs at hsome with hd
  rw [Option.some.injEq] at hsome
  subst hsome
  exact ⟨hd, rfl⟩

/-- Witness for C6 at a one-lot list and the constant distance oracle 1. -/
theorem filtrer_parkings_pertinents_correct_temoin :
    ({ parkingExemple with distance_destination := 1 } : Parking).distance_destination ≤ 3
      ∧ (filtrer_parkings_pertinents distanceUnite [parkingExemple] (0, 0) 3).length ≤ 15 := by
  have h := filtrer_parkings_pertinents_correct distanceUnite [parkingExemple] (0, 0) 3
  refine ⟨(h.1 _ ?_).1, h.2.1⟩
  rw [show filtrer_parkings_pertinents distanceUnite [parkingExemple] (0, 0) 3
    = [{ parkingExemple with distance_destination := 1 }] from rfl]
  exact List.mem_singleton.mpr rfl

/-- Claim C7: the time-to-saturation string of `predire_saturation` (computed
by `calculer_temps_saturation` from the predicted and the current
occupancy `1 − free/capacity`) follows the spec's derivation: when the
prediction exceeds 0.95 and the current occupancy is below 0.95, a linear
fill rate is extrapolated and the remaining time expressed in minutes or
hours, except that a near-zero rate (at most 0.001 per minute) reports
low immediate risk instead of dividing; otherwise a prediction of at
least 0.99 reports already saturated, one of at most 0.5 reports low
risk, and anything else reports N/A.  The last conjunct ties the helper
to `predire_saturation` itself. -/
theorem calculer_temps_saturation_cas :
    ∀ (pred cur : ℚ),
      ((pred > 0.95 ∧ cur < 0.95) → (pred - cur) / 60 ≤ 0.001 →
        calculer_temps_saturation pred cur = "Faible risque immédiat")
      ∧ ((pred > 0.95 ∧ cur < 0.95) → (pred - cur) / 60 > 0.001 →
        calculer_temps_saturation pred cur =
          (if Rat.floor ((0.95 - cur) / ((pred - cur) / 60)) < 60 then
            "~" ++ toString (Rat.floor ((0.95 - cur) / ((pred - cur) / 60))) ++ " min"
          else
            "~" ++ toString (Rat.floor ((0.95 - cur) / ((pred - cur) / 60)) / 60)
              ++ " heure(s)"))
      ∧ (¬(pred > 0.95 ∧ cur < 0.95) → pred ≥ 0.99 →
        calculer_temps_saturation pred cur = "Déjà saturé ou très proche")
      ∧ (pred ≤ 0.5 →
        calculer_temps_saturation pred cur = "Très faible risque")
      ∧ (¬(pred > 0.95 ∧ cur < 0.95) → ¬(pred ≥ 0.99) → ¬(pred ≤ 0.5) →
        calculer_temps_saturation pred cur = "N/A")
      ∧ (∀ (dist : DistFun) (parking : Parking) (heure : ℤ) (base ecart : ℚ)
          (mo pm : Bool) (stations : List StationMetro) (evts : List Evenement),
        (predire_saturation dist parking heure base ecart mo pm stations
            evts).temps_avant_saturation
          = calculer_temps_saturation
              (predire_saturation dist parking heure base ecart mo pm stations
                evts).taux_occupation_predit
              (predire_saturation dist parking heure base ecart mo pm stations
                evts).taux_occupation_actuel) := by
  intro pred cur
  refine ⟨?_, ?_, ?_, ?_, ?_, ?_⟩
  · intro h hv
    simp only [calculer_temps_saturation]
    rw [if_pos h, if_neg (not_lt.mpr hv)]
  · intro h hv
    simp only [calculer_temps_saturation]
    rw [if_pos h, if_pos hv]
  · intro h h99
    simp only [calculer_temps_saturation]
    rw [if_neg h, if_pos h99]
  · intro h5
    have hA : ¬(pred > 0.95 ∧ cur < 0.95) := by
      rintro ⟨hp, _⟩
      linarith
    have hB : ¬(pred ≥ 0.99) := not_le.mpr (by linarith)
    simp only [calculer_temps_saturation]
    rw [if_neg hA, if_neg hB, if_pos h5]
  · intro hA hB hC
    simp only [calculer_temps_saturation]
    rw [if_neg hA, if_neg hB, if_neg hC]
  · intro dist parking heure base ecart mo pm stations evts
    rfl

/-- Witness for C7: at prediction 0.3 and current occupancy 0.2 the code
reports low risk. -/
theorem calculer_temps_saturation_cas_temoin :
    calculer_temps_saturation 0.3 0.2 = "Très faible risque" :=
  (calculer_temps_saturation_cas 0.3 0.2).2.2.2.1 (by norm_num)

/-- Helper: at exactly 70 percent token overlap (7 of 10 tokens, no
containment), the source's strict `> 0.7` comparison says NOT similar. -/
theorem stations_similaires_seuil_faux :
    _stations_similaires "a b c d e f g h i j" "a b c d e f g k l m" = false := by
  simp only [_stations_similaires]
  rw [if_neg (by decide), if_neg (by decide)]
  rw [show ((motsDe (normaliser "a b c d e f g h i j")).dedup.filter
      (fun m => m ∈ (motsDe (normaliser "a b c d e f g k l m")).dedup)).length = 7 from by
    decide]
  rw [show (max (motsDe (normaliser "a b c d e f g h i j")).dedup.length
      (motsDe (normaliser "a b c d e f g k l m")).dedup.length) = 10 from by decide]
  rw [decide_eq_false]
  push_cast
  norm_num

/-- Helper: at exactly 70 percent token overlap the claim's `≥ 70 percent`
reading says similar. -/
theorem similaires_selon_claim_seuil_vrai :
    similaires_selon_claim "a b c d e f g h i j" "a b c d e f g k l m" = true := by
  simp only [similaires_selon_claim]
  rw [show ((motsDe (normaliser "a b c d e f g h i j")).dedup.filter
      (fun m => m ∈ (motsDe (normaliser "a b c d e f g k l m")).dedup)).length = 7 from by
    decide]
  rw [show (max (motsDe (normaliser "a b c d e f g h i j")).dedup.length
      (motsDe (normaliser "a b c d e f g k l m")).dedup.length) = 10 from by decide]
  rw [decide_eq_true (show ((7:ℕ):ℚ) / ((10:ℕ):ℚ) ≥ 0.7 from by push_cast; norm_num)]
  simp

/-- Claim C8, counterexample.  Four concrete inputs on which the source and
the claim disagree: (1) the source closes a station matched in the
extracted list of a NORMAL-impact incident, the claim does not; (2) the
claim closes a station whose raw name appears in a normal-impact
incident's message, the source does not (it requires a non-normal
impact); (3) the source's message search is case-insensitive, so it
closes a station whose raw name does not literally appear; (4) at exactly
70 percent token overlap the source (strict `> 0.7`) does not match while
the claim (`≥ 70 percent`) does. -/
theorem fermeture_station_contre_exemple :
    ((_verifier_fermeture_station "Riquet" [incidentExtraitNormal]).1 = true
      ∧ fermeture_selon_claim "Riquet" [incidentExtraitNormal] = false)
    ∧ ((_verifier_fermeture_station "Riquet" [incidentMessageNormal]).1 = false
      ∧ fermeture_selon_claim "Riquet" [incidentMessageNormal] = true)
    ∧ ((_verifier_fermeture_station "Riquet" [incidentMessageMinuscule]).1 = true
      ∧ fermeture_selon_claim "Riquet" [incidentMessageMinuscule] = false)
    ∧ ((_verifier_fermeture_station "a b c d e f g h i j" [incidentSeuil]).1 = false
      ∧ fermeture_selon_claim "a b c d e f g h i j" [incidentSeuil] = true) := by
  refine ⟨⟨by decide, by decide⟩, ⟨by decide, by decide⟩, ⟨by decide, by decide⟩, ⟨?_, ?_⟩⟩
  · simp only [_verifier_fermeture_station, incidentSeuil, List.any_cons, List.any_nil,
      stations_similaires_seuil_faux, Bool.or_false, Bool.false_eq_true, if_false]
    rw [if_neg (by decide)]
  · simp only [fermeture_selon_claim, incidentSeuil, List.any_cons, List.any_nil,
      similaires_selon_claim_seuil_vrai]
    decide

/-- Claim C8, amended: a station is deemed closed exactly when its name
approximately matches (normalized equality, containment either way, or
token overlap STRICTLY greater than 70 percent of the larger token set)
an extracted closed-station name of ANY incident regardless of its impact
level, or when the station name appears CASE-INSENSITIVELY inside the
message of an incident whose impact level is non-normal. -/
theorem fermeture_station_amendee_correcte :
    ∀ (nom : String) (incidents : List IncidentMetro),
      (_verifier_fermeture_station nom incidents).1 = fermeture_amendee nom incidents := by
  intro nom incidents
  induction incidents with
  | nil => rfl
  | cons inc reste ih =>
    simp only [_verifier_fermeture_station, fermeture_amendee, List.any_cons]
    by_cases h1 : inc.stations_fermees.any (fun sf => _stations_similaires nom sf) = true
    · rw [if_pos h1, h1]
      simp
    · rw [if_neg h1]
      rw [Bool.not_eq_true] at h1
      rw [h1]
      by_cases h2 : (contientListe (minuscules inc.message.toList) (minuscules nom.toList)
          && inc.impact_niveau != "normal") = true
      · rw [if_pos h2, h2]
        simp
      · rw [if_neg h2]
        rw [Bool.not_eq_true] at h2
        rw [h2]
        simp only [Bool.false_or]
        simp only [fermeture_amendee] at ih
        exact ih

/-- Helper: the value of `recommander_parking` when the sorted scored list
is known to be `m :: r`. -/
theorem recommander_parking_cons (dist : DistFun) (tous_parkings : List Candidat)
    (travaux : List Travaux) (incidents : List IncidentMetro)
    (stations : List StationMetro) (m : Recommandation) (r : List Recommandation)
    (hne : tous_parkings.isEmpty = false)
    (htri : (tous_parkings.filterMap
        (evaluer_candidat dist travaux stations)).insertionSort ordreScore = m :: r) :
    recommander_parking dist tous_parkings travaux incidents stations =
      { parking_recommande := some m.parking
        temps_estime := some (m.temps_acces, m.temps_marche_destination, m.temps_total)
        saturation := some m.prediction_saturation
        route_to_parking_points := m.route_to_parking_points
        route_parking_to_dest_points := m.route_parking_to_dest_points
        travaux_sur_trajet := m.travaux_impactants
        travaux_tous := some travaux
        incidents_metro := incidents
        stations_destination := stations
        stations_parking := some m.stations_proches
        impact_metro := some m.impact_metro
        alternatives := r.take 3 } := by
  simp only [recommander_parking, hne, Bool.false_eq_true, if_false, htri]

/-- Claim C4: on every candidate list with at least one scored (reachable)
candidate, `recommander_parking` sorts the scored candidates
non-decreasing by composite score, returns as primary recommendation the
head of that sorted list — a candidate of minimum score among all scored
candidates — and returns as alternatives the next three sorted
candidates. -/
theorem recommander_parking_classement :
    ∀ (dist : DistFun) (tous_parkings : List Candidat) (travaux : List Travaux)
      (incidents : List IncidentMetro) (stations : List StationMetro),
      tous_parkings.filterMap (evaluer_candidat dist travaux stations) ≠ [] →
      ∃ (meilleure : Recommandation) (reste : List Recommandation),
        (tous_parkings.filterMap
            (evaluer_candidat dist travaux stations)).insertionSort ordreScore
          = meilleure :: reste
        ∧ List.Sorted ordreScore (meilleure :: reste)
        ∧ (recommander_parking dist tous_parkings travaux incidents
            stations).parking_recommande = some meilleure.parking
        ∧ (recommander_parking dist tous_parkings travaux incidents
            stations).alternatives = reste.take 3
        ∧ ∀ x ∈ tous_parkings.filterMap (evaluer_candidat dist travaux stations),
            meilleure.score ≤ x.score := by
  intro dist tous travaux incidents stations hne
  have hne2 : tous.isEmpty = false := by
    cases tous with
    | nil => simp at hne
    | cons a l => rfl
  have hlen : ((tous.filterMap (evaluer_candidat dist travaux stations)).insertionSort
      ordreScore).length
      = (tous.filterMap (evaluer_candidat dist travaux stations)).length :=
    List.length_insertionSort _ _
  obtain ⟨m, r, htri⟩ : ∃ m r,
      (tous.filterMap (evaluer_candidat dist travaux stations)).insertionSort ordreScore
        = m :: r := by
    cases h : (tous.filterMap (evaluer_candidat dist travaux stations)).insertionSort
        ordreScore with
    | nil =>
      rw [h, List.length_nil] at hlen
      exact absurd (List.length_eq_zero.mp hlen.symm) hne
    | cons m r => exact ⟨m, r, rfl⟩
  have hsorted : List.Sorted ordreScore (m :: r) := htri ▸ List.sorted_insertionSort _ _
  have hres := recommander_parking_cons dist tous travaux incidents stations m r hne2 htri
  refine ⟨m, r, htri, hsorted, by rw [hres], by rw [hres], ?_⟩
  intro x hx
  have hx2 : x ∈ m :: r := by
    rw [← htri]
    exact (List.mem_insertionSort _).mpr hx
  rcases List.mem_cons.mp hx2 with h | h
  · rw [h]
  · exact List.rel_of_sorted_cons hsorted x h

/-- Witness for C4 at a single reachable candidate: the sorted list is a
singleton, so there are no alternatives. -/
theorem recommander_parking_classement_temoin :
    (recommander_parking distanceNulle [candidatExemple] [] [] []).alternatives = [] := by
  obtain ⟨m, r, htri, _, _, halt, _⟩ :=
    recommander_parking_classement distanceNulle [candidatExemple] [] [] []
      (by
        simp only [List.filterMap_cons, evaluer_candidat, candidatExemple, trajetExemple]
        simp)
  have hlen1 : (m :: r).length = 1 := by
    rw [← htri, List.length_insertionSort]
    rfl
  have hr : r = [] := by simpa using hlen1
  rw [halt, hr]
  rfl

/-- Claim C9, counterexample.  The claim says the no-recommendation result
carries the fetched road-works list; but with zero candidates the result
dict carries only an empty on-route works list and no `travaux_tous` key
at all, even though a non-empty works list was fetched. -/
theorem recommander_parking_contexte_travaux_contre_exemple :
    (recommander_parking distanceNulle [] [travauxExemple] [] []).travaux_sur_trajet = []
      ∧ (recommander_parking distanceNulle [] [travauxExemple] [] []).travaux_tous = none
      ∧ (recommander_parking distanceNulle [] [travauxExemple] [] []).parking_recommande
          = none :=
  ⟨rfl, rfl, rfl⟩

/-- Claim C9, amended: whenever zero candidate lots are reachable (no
candidates at all, or every candidate skipped because a driving or
walking leg is null), `recommander_parking` returns the explicit
no-recommendation result with a null primary pick rather than raising,
and that result carries the gathered metro incidents and destination
stations — but not the fetched road-works list, whose fields are the
empty on-route list and an absent `travaux_tous` key. -/
theorem recommander_parking_vide_amende :
    ∀ (dist : DistFun) (tous_parkings : List Candidat) (travaux : List Travaux)
      (incidents : List IncidentMetro) (stations : List StationMetro),
      (tous_parkings = []
          ∨ tous_parkings.filterMap (evaluer_candidat dist travaux stations) = []) →
      recommander_parking dist tous_parkings travaux incidents stations
          = resultat_vide incidents stations
        ∧ (recommander_parking dist tous_parkings travaux incidents
            stations).parking_recommande = none := by
  intro dist tous travaux incidents stations h
  have hres : recommander_parking dist tous travaux incidents stations
      = resultat_vide incidents stations := by
    rcases h with h | h
    · subst h
      rfl
    · by_cases he : tous.isEmpty = true
      · simp only [recommander_parking, he, if_true]
      · simp only [recommander_parking, he, Bool.false_eq_true, if_false, h]
        rfl
  exact ⟨hres, by rw [hres]; rfl⟩

/-- Witness for the amended C9: one candidate whose driving leg is null is
skipped, yielding the explicit empty recommendation. -/
theorem recommander_parking_vide_amende_temoin :
    recommander_parking distanceNulle [candidatInaccessible] [travauxExemple] [] []
      = resultat_vide [] [] :=
  (recommander_parking_vide_amende distanceNulle [candidatInaccessible] [travauxExemple]
    [] [] (Or.inr rfl)).1

/-- Helper: when the first value read fails (string exhausted mid-chunk),
the decoder loop fails. -/
theorem decode_none_1 (l : List Char) (lat lng : ℤ) (h0 : l ≠ [])
    (h1 : lireValeur l 0 0 = none) : decodeBoucle l lat lng = none := by
  cases l with
  | nil => exact absurd rfl h0
  | cons c reste =>
    rw [decodeBoucle]
    split
    · rfl
    · rename_i v l1 heq
      rw [h1] at heq
      exact Option.noConfusion heq

/-- Helper: when the longitude value read fails, the decoder loop fails. -/
theorem decode_none_2 (l l1 : List Char) (lat lng : ℤ) (v1 : ℕ) (h0 : l ≠ [])
    (h1 : lireValeur l 0 0 = some (v1, l1))
    (h2 : lireValeur l1 0 0 = none) : decodeBoucle l lat lng = none := by
  cases l with
  | nil => exact absurd rfl h0
  | cons c reste =>
    rw [decodeBoucle]
    split
    · rfl
    · rename_i v l1' heq
      rw [h1] at heq
      injection heq with heq2
      injection heq2 with ha hb
      subst ha hb
      split
      · rfl
      · rename_i v2 l2 heq3
        rw [h2] at heq3
        exact Option.noConfusion heq3

/-- Helper: one full iteration of the decoder loop when both value reads
succeed. -/
theorem decode_etape (l l1 l2 : List Char) (lat lng : ℤ) (v1 v2 : ℕ) (h0 : l ≠ [])
    (h1 : lireValeur l 0 0 = some (v1, l1))
    (h2 : lireValeur l1 0 0 = some (v2, l2)) :
    decodeBoucle l lat lng =
      match decodeBoucle l2 (lat + decoderDelta v1) (lng + decoderDelta v2) with
      | none => none
      | some points => some ((((lat + decoderDelta v1 : ℤ) : ℚ) / 100000,
          ((lng + decoderDelta v2 : ℤ) : ℚ) / 100000) :: points) := by
  cases l with
  | nil => exact absurd rfl h0
  | cons c reste =>
    rw [decodeBoucle]
    split
    · rename_i heq
      rw [h1] at heq
      exact Option.noConfusion heq
    · rename_i v l1' heq
      rw [h1] at heq
      injection heq with heq2
      injection heq2 with ha hb
      subst ha hb
      split
      · rename_i heq3
        rw [h2] at heq3
        exact Option.noConfusion heq3
      · rename_i v2' l2' heq3
        rw [h2] at heq3
        injection heq3 with heq4
        injection heq4 with hc hd
        subst hc hd
        rfl

/-- Helper: reading a value on a well-formed block consumes exactly the
block. -/
theorem lireValeur_bloc : ∀ (conts : List Char) (fin : Char) (suite : List Char)
    (shift result : ℕ), (∀ c ∈ conts, 95 ≤ c.toNat) → fin.toNat < 95 →
    ∃ v, lireValeur (conts ++ fin :: suite) shift result = some (v, suite) := by
  intro conts
  induction conts with
  | nil =>
    intro fin suite shift result _ hfin
    refine ⟨result ||| (chunkDe fin <<< shift), ?_⟩
    simp only [List.nil_append, lireValeur, if_neg (Nat.not_le.mpr hfin)]
  | cons c cs ih =>
    intro fin suite shift result hc hfin
    have h95 : 95 ≤ c.toNat := hc c (List.mem_cons_self _ _)
    obtain ⟨v, hv⟩ := ih fin suite (shift + 5) (result ||| (chunkDe c <<< shift))
      (fun x hx => hc x (List.mem_cons_of_mem _ hx)) hfin
    refine ⟨v, ?_⟩
    simp only [List.cons_append, lireValeur, if_pos h95]
    exact hv

/-- Helper: a successful value read splits its input into consumed
continuation characters, one terminator, and the remainder. -/
theorem lireValeur_decomposition : ∀ (l : List Char) (shift result v : ℕ)
    (reste : List Char), lireValeur l shift result = some (v, reste) →
    ∃ pre t, l = pre ++ t :: reste ∧ (∀ c ∈ pre, 95 ≤ c.toNat) ∧ t.toNat < 95 := by
  intro l
  induction l with
  | nil =>
    intro shift result v reste h
    simp [lireValeur] at h
  | cons c cs ih =>
    intro shift result v reste h
    by_cases hb : c.toNat ≥ 95
    · simp only [lireValeur, if_pos hb] at h
      obtain ⟨pre, t, hl, hpre, ht⟩ := ih _ _ _ _ h
      refine ⟨c :: pre, t, by rw [hl]; rfl, ?_, ht⟩
      intro x hx
      rcases List.mem_cons.mp hx with h' | h'
      · subst h'
        exact hb
      · exact hpre x h'
    · simp only [lireValeur, if_neg hb, Option.some.injEq, Prod.mk.injEq] at h
      obtain ⟨hv, hr⟩ := h
      subst hr
      exact ⟨[], c, rfl, fun x hx => absurd hx (List.not_mem_nil x), Nat.lt_of_not_le hb⟩

/-- Helper: a suffix decomposition of a list ending in `c` either stops at
the final character or still ends in `c`. -/
theorem suffixe_concat {m pre : List Char} {t c : Char} {reste : List Char}
    (heq : m ++ [c] = pre ++ t :: reste) :
    (reste = [] ∧ t = c ∧ pre = m) ∨
      ∃ m1, reste = m1 ++ [c] ∧ m = pre ++ t :: m1 := by
  rcases reste.eq_nil_or_concat with hr | ⟨m1, a, hr⟩
  · subst hr
    have h := List.append_inj' heq rfl
    exact Or.inl ⟨rfl, (List.cons.injEq .. ▸ h.2).1.symm ▸ rfl, h.1.symm⟩
  · rw [List.concat_eq_append] at hr
    subst hr
    have heq2 : m ++ [c] = (pre ++ t :: m1) ++ [a] := by
      rw [heq]
      simp
    have h := List.append_inj' heq2 rfl
    have hac : a = c := by
      have h2 := h.2
      injection h2 with h1 _
      exact h1.symm
    subst hac
    exact Or.inr ⟨m1, rfl, h.1⟩

/-- Helper (C10 totality): on a well-formed stream of coordinate pairs the
decoder loop succeeds and yields one point per encoded pair. -/
theorem decodeBoucle_paquets : ∀ (paquets : List ((List Char × Char) × (List Char × Char)))
    (lat lng : ℤ), PaquetsValides paquets →
    ∃ pts, decodeBoucle (paquetsChars paquets) lat lng = some pts
      ∧ pts.length = paquets.length := by
  intro paquets
  induction paquets with
  | nil =>
    intro lat lng _
    refine ⟨[], ?_, rfl⟩
    rw [paquetsChars, decodeBoucle]
  | cons p reste ih =>
    intro lat lng hval
    obtain ⟨⟨b1conts, b1fin⟩, ⟨b2conts, b2fin⟩⟩ := p
    have hp := hval _ (List.mem_cons_self _ _)
    have hchars : paquetsChars (((b1conts, b1fin), (b2conts, b2fin)) :: reste)
        = b1conts ++ b1fin :: (b2conts ++ b2fin :: paquetsChars reste) := by
      simp [paquetsChars, blocChars]
    obtain ⟨v1, hv1⟩ := lireValeur_bloc b1conts b1fin
      (b2conts ++ b2fin :: paquetsChars reste) 0 0 hp.1.1 hp.1.2
    obtain ⟨v2, hv2⟩ := lireValeur_bloc b2conts b2fin (paquetsChars reste) 0 0 hp.2.1 hp.2.2
    obtain ⟨pts, hpts, hlen⟩ := ih (lat + decoderDelta v1) (lng + decoderDelta v2)
      (fun q hq => hval q (List.mem_cons_of_mem _ hq))
    have hne : b1conts ++ b1fin :: (b2conts ++ b2fin :: paquetsChars reste) ≠ [] := by
      cases b1conts <;> simp
    have hstep := decode_etape _ _ _ lat lng v1 v2 hne hv1 hv2
    refine ⟨(((lat + decoderDelta v1 : ℤ) : ℚ) / 100000,
      ((lng + decoderDelta v2 : ℤ) : ℚ) / 100000) :: pts, ?_, ?_⟩
    · rw [hchars, hstep, hpts]
    · simp [hlen]

/-- Helper (C10): a stream of pairs followed by one lone latitude block (no
longitude chunks after it) makes the decoder index past the end. -/
theorem decodeBoucle_impair : ∀ (paquets : List ((List Char × Char) × (List Char × Char)))
    (conts : List Char) (dernier : Char) (lat lng : ℤ), PaquetsValides paquets →
    BlocValide conts dernier →
    decodeBoucle (paquetsChars paquets ++ blocChars conts dernier) lat lng = none := by
  intro paquets
  induction paquets with
  | nil =>
    intro conts dernier lat lng _ hb
    have hchars : paquetsChars [] ++ blocChars conts dernier = conts ++ dernier :: [] := by
      simp [paquetsChars, blocChars]
    obtain ⟨v1, hv1⟩ := lireValeur_bloc conts dernier [] 0 0 hb.1 hb.2
    rw [hchars]
    exact decode_none_2 _ _ lat lng v1 (by cases conts <;> simp) hv1 rfl
  | cons p reste ih =>
    intro conts dernier lat lng hval hb
    obtain ⟨⟨b1conts, b1fin⟩, ⟨b2conts, b2fin⟩⟩ := p
    have hp := hval _ (List.mem_cons_self _ _)
    have hchars : paquetsChars (((b1conts, b1fin), (b2conts, b2fin)) :: reste)
          ++ blocChars conts dernier
        = b1conts ++ b1fin :: (b2conts ++ b2fin ::
            (paquetsChars reste ++ blocChars conts dernier)) := by
      simp [paquetsChars, blocChars]
    obtain ⟨v1, hv1⟩ := lireValeur_bloc b1conts b1fin
      (b2conts ++ b2fin :: (paquetsChars reste ++ blocChars conts dernier)) 0 0 hp.1.1 hp.1.2
    obtain ⟨v2, hv2⟩ := lireValeur_bloc b2conts b2fin
      (paquetsChars reste ++ blocChars conts dernier) 0 0 hp.2.1 hp.2.2
    have hne : b1conts ++ b1fin :: (b2conts ++ b2fin ::
        (paquetsChars reste ++ blocChars conts dernier)) ≠ [] := by
      cases b1conts <;> simp
    have hstep := decode_etape _ _ _ lat lng v1 v2 hne hv1 hv2
    rw [hchars, hstep,
      ih conts dernier (lat + decoderDelta v1) (lng + decoderDelta v2)
        (fun q hq => hval q (List.mem_cons_of_mem _ hq)) hb]

/-- Helper (C10): a string whose final character still carries the
continuation bit makes the decoder index past the end (fuel-indexed
strong induction on the length). -/
theorem decodeBoucle_continuation_aux : ∀ (n : ℕ) (m : List Char) (c : Char),
    m.length ≤ n → 95 ≤ c.toNat → ∀ lat lng : ℤ,
    decodeBoucle (m ++ [c]) lat lng = none := by
  intro n
  induction n with
  | zero =>
    intro m c hm hc lat lng
    have hm0 : m = [] := List.length_eq_zero.mp (Nat.le_zero.mp hm)
    subst hm0
    refine decode_none_1 _ lat lng (by simp) ?_
    simp only [List.nil_append, lireValeur, if_pos hc]
  | succ n ih =>
    intro m c hm hc lat lng
    cases h1 : lireValeur (m ++ [c]) 0 0 with
    | none => exact decode_none_1 _ lat lng (by simp) h1
    | some p1 =>
      obtain ⟨v1, l1⟩ := p1
      obtain ⟨pre, t, heq, _, ht⟩ := lireValeur_decomposition _ _ _ _ _ h1
      rcases suffixe_concat heq with ⟨_, htc, _⟩ | ⟨m1, hl1, hm1⟩
      · exact absurd (htc ▸ hc) (Nat.not_le.mpr ht)
      · subst hl1
        cases h2 : lireValeur (m1 ++ [c]) 0 0 with
        | none => exact decode_none_2 _ _ lat lng v1 (by simp) h1 h2
        | some p2 =>
          obtain ⟨v2, l2⟩ := p2
          obtain ⟨pre2, t2, heq2, _, ht2⟩ := lireValeur_decomposition _ _ _ _ _ h2
          rcases suffixe_concat heq2 with ⟨_, htc2, _⟩ | ⟨m2, hl2, hm2⟩
          · exact absurd (htc2 ▸ hc) (Nat.not_le.mpr ht2)
          · subst hl2
            have hm2n : m2.length ≤ n := by
              have hlen1 := congrArg List.length hm1
              have hlen2 := congrArg List.length hm2
              simp at hlen1 hlen2
              omega
            have hstep := decode_etape _ _ _ lat lng v1 v2 (by simp) h1 h2
            rw [hstep, ih m2 c hm2n hc]

/-- Claim C10: `_decode_polyline` is partial on malformed input and total on
well-formed encodings.  The empty string decodes to the empty sequence;
the single character `_` (final 5-bit chunk with the continuation bit
0x20 set) and the single character `?` (a complete latitude delta with no
longitude chunks) both make the decoder index past the end of the string
(result `none`, modelling the uncaught Python `IndexError`); in general
ANY input whose final character carries the continuation bit fails, and
ANY input consisting of well-formed coordinate pairs followed by one lone
latitude block fails; while on every well-formed encoding (a stream of
valid chunk-block pairs) decoding succeeds and returns exactly one
(lat, lon) point per encoded coordinate pair. -/
theorem decode_polyline_partialite :
    _decode_polyline "" = some []
    ∧ _decode_polyline "_" = none
    ∧ _decode_polyline "?" = none
    ∧ (∀ (m : List Char) (c : Char), 95 ≤ c.toNat → ∀ lat lng : ℤ,
        decodeBoucle (m ++ [c]) lat lng = none)
    ∧ (∀ (paquets : List ((List Char × Char) × (List Char × Char)))
        (conts : List Char) (dernier : Char) (lat lng : ℤ),
        PaquetsValides paquets → BlocValide conts dernier →
        decodeBoucle (paquetsChars paquets ++ blocChars conts dernier) lat lng = none)
    ∧ (∀ (paquets : List ((List Char × Char) × (List Char × Char))) (lat lng : ℤ),
        PaquetsValides paquets →
        ∃ pts, decodeBoucle (paquetsChars paquets) lat lng = some pts
          ∧ pts.length = paquets.length) := by
  refine ⟨?_, ?_, ?_, ?_, decodeBoucle_impair, decodeBoucle_paquets⟩
  · show decodeBoucle [] 0 0 = some []
    rw [decodeBoucle]
  · show decodeBoucle ['_'] 0 0 = none
    exact decode_none_1 _ 0 0 (by simp) (by decide)
  · show decodeBoucle ['?'] 0 0 = none
    exact decode_none_2 _ [] 0 0 0 (by simp) (by decide) rfl
  · intro m c hc lat lng
    exact decodeBoucle_continuation_aux m.length m c le_rfl hc lat lng

/-- Witness for C10: the two-character well-formed encoding `??` decodes to
exactly one coordinate pair. -/
theorem decode_polyline_partialite_temoin :
    ∃ pts, decodeBoucle ['?', '?'] 0 0 = some pts ∧ pts.length = 1 := by
  have h := decode_polyline_partialite.2.2.2.2.2 [(([], '?'), ([], '?'))] 0 0 (by
    intro p hp
    rw [List.mem_singleton] at hp
    subst hp
    exact ⟨⟨fun c hc => absurd hc (List.not_mem_nil c), by decide⟩,
      ⟨fun c hc => absurd hc (List.not_mem_nil c), by decide⟩⟩)
  rw [show paquetsChars [(([], '?'), ([], '?'))] = ['?', '?'] from rfl] at h
  exact h
